import Mathlib

/-!
A verification development for the nexus-analytics service: a shallow
embedding of `src/app/main.py` and `src/app/core/datadog_config.py`.

Modelling conventions:
- A metric emission is a `MetricEvent`.  Each metric operation of the
  `DatadogMetrics` client returns an `EmitResult` recording
  (a) `calls`: the metric operations invoked on the client,
  (b) `sent`: the calls actually forwarded to the statsd transport
      (forwarding happens only when the client is initialized), and
  (c) `exc`: the exception a transport call raised, if any
      (`statsd` calls may raise; those exceptions are not caught by the
      direct emission methods).
- Python exceptions are modelled by `PyError`: either a plain exception
  carrying its type name and message, or a FastAPI `HTTPException`
  carrying a status code and detail string.
- The statsd transport is an oracle `Transport : MetricEvent → Option
  PyError` (`none` means the call returned normally).
- psutil sampling is an oracle value `Except PyError PsutilSample`:
  either the raw sample psutil produced or the exception it raised.
- Wall-clock readings (`time.time()`) are explicit rational inputs.
- The process-wide `analytics_query_count` is threaded explicitly.
-/

inductive MetricKind where
  | counter
  | gauge
  | histogram
  | timing
deriving DecidableEq

structure MetricEvent where
  name : String
  kind : MetricKind
  value : Rat
  tags : List String
deriving DecidableEq

inductive PyError where
  | exc (name : String) (msg : String)
  | http (status : Int) (detail : String)
deriving DecidableEq

/-- Model of Python `type(e).__name__` on exceptions of the embedding. -/
def PyError.typeName : PyError → String
  | .exc n _ => n
  | .http _ _ => "HTTPException"

/-- The statsd transport: for each forwarded event, either returns
normally (`none`) or raises an exception. -/
abbrev Transport := MetricEvent → Option PyError

/-- Options dictionary passed to `datadog.initialize` in
`_initialize_datadog`; in agentless mode `statsd_host` is explicitly
`None` and `statsd_port` is absent. -/
structure DatadogOptions where
  api_key : String
  app_key : String
  statsd_host : Option String
  statsd_port : Option Int
deriving DecidableEq

/-- State of the `DatadogMetrics` client: the `initialized` flag and the
options the transport was configured with (if any). -/
structure ClientState where
  initialized : Bool
  options : Option DatadogOptions
deriving DecidableEq

/-- Trace of one metric operation (or a sequence of them): client-level
calls, transport-level sends, and the exception propagated to the
caller, if any. -/
structure EmitResult where
  calls : List MetricEvent
  sent : List MetricEvent
  exc : Option PyError
deriving DecidableEq

/-- Sequential composition of two emission traces: if the first raised,
the second never ran. -/
def EmitResult.seq (a b : EmitResult) : EmitResult :=
  match a.exc with
  | some e => ⟨a.calls, a.sent, some e⟩
  | none => ⟨a.calls ++ b.calls, a.sent ++ b.sent, b.exc⟩

/-- Embedding of `DatadogMetrics.increment_counter`: forwards to
`statsd.increment` iff the client is initialized. -/
def increment_counter (st : ClientState) (tr : Transport) (metric_name : String)
    (value : Rat) (tags : List String) : EmitResult :=
  let ev : MetricEvent := ⟨metric_name, .counter, value, tags⟩
  if st.initialized then ⟨[ev], [ev], tr ev⟩ else ⟨[ev], [], none⟩

/-- Embedding of `DatadogMetrics.record_gauge`. -/
def record_gauge (st : ClientState) (tr : Transport) (metric_name : String)
    (value : Rat) (tags : List String) : EmitResult :=
  let ev : MetricEvent := ⟨metric_name, .gauge, value, tags⟩
  if st.initialized then ⟨[ev], [ev], tr ev⟩ else ⟨[ev], [], none⟩

/-- Embedding of `DatadogMetrics.record_histogram`. -/
def record_histogram (st : ClientState) (tr : Transport) (metric_name : String)
    (value : Rat) (tags : List String) : EmitResult :=
  let ev : MetricEvent := ⟨metric_name, .histogram, value, tags⟩
  if st.initialized then ⟨[ev], [ev], tr ev⟩ else ⟨[ev], [], none⟩

/-- Embedding of `DatadogMetrics.record_timing`. -/
def record_timing (st : ClientState) (tr : Transport) (metric_name : String)
    (value : Rat) (tags : List String) : EmitResult :=
  let ev : MetricEvent := ⟨metric_name, .timing, value, tags⟩
  if st.initialized then ⟨[ev], [ev], tr ev⟩ else ⟨[ev], [], none⟩

/-- Raw values produced by psutil: CPU percentage, virtual-memory
percentage, and available virtual memory in bytes. -/
structure PsutilSample where
  cpu_percent : Rat
  memory_percent : Rat
  memory_available : Rat
deriving DecidableEq

/-- The dictionary returned by `DatadogMetrics.get_system_metrics`. -/
structure SystemSnapshot where
  cpu_percent : Rat
  memory_percent : Rat
  memory_available_mb : Rat
deriving DecidableEq

/-- Embedding of `DatadogMetrics.get_system_metrics`: converts the raw
psutil sample (available memory divided by 1024*1024); a psutil
exception propagates to the caller. -/
def get_system_metrics (sample : Except PyError PsutilSample) :
    Except PyError SystemSnapshot :=
  sample.map fun s => ⟨s.cpu_percent, s.memory_percent, s.memory_available / (1024 * 1024)⟩

/-- Embedding of `DatadogMetrics.track_system_metrics`: returns
immediately if uninitialized; otherwise samples system metrics and
emits three gauges, catching (and logging) any exception from the
sampling or the gauge emissions. -/
def track_system_metrics (st : ClientState) (tr : Transport)
    (sample : Except PyError PsutilSample) : EmitResult :=
  if st.initialized = false then ⟨[], [], none⟩
  else
    match get_system_metrics sample with
    | .error _ => ⟨[], [], none⟩
    | .ok m =>
      let body :=
        (record_gauge st tr "nexus.analytics.system.cpu_percent" m.cpu_percent []).seq
          ((record_gauge st tr "nexus.analytics.system.memory_percent" m.memory_percent []).seq
            (record_gauge st tr "nexus.analytics.system.memory_available_mb"
              m.memory_available_mb []))
      ⟨body.calls, body.sent, none⟩

/-- Environment variables read by `_initialize_datadog`; `none` means
the variable is unset. -/
structure DatadogEnv where
  DD_API_KEY : Option String
  DD_APP_KEY : Option String
  DD_AGENT_HOST : Option String
  DD_DOGSTATSD_PORT : Option String
  DD_AGENTLESS_MODE : Option String
deriving DecidableEq

/-- Port value computed by `int(os.getenv('DD_DOGSTATSD_PORT', 8125))`:
defaults to 8125 when unset; a set but unparseable value raises
(modelled with `String.toInt?` as the model of Python `int()`). -/
def dogstatsdPort (env : DatadogEnv) : Option Int :=
  match env.DD_DOGSTATSD_PORT with
  | none => some 8125
  | some s => s.toInt?

/-- Model of Python `str.lower()` (ASCII case folding, applied
character by character). -/
def pyLower (s : String) : String :=
  ⟨s.data.map Char.toLower⟩

/-- Whether `os.getenv('DD_AGENTLESS_MODE', 'false').lower() == 'true'`. -/
def agentlessMode (env : DatadogEnv) : Bool :=
  pyLower (env.DD_AGENTLESS_MODE.getD "false") = "true"

/-- The options dictionary `_initialize_datadog` builds for
`datadog.initialize`, given the parsed port. -/
def buildOptions (env : DatadogEnv) (api_key : String) (port : Int) : DatadogOptions :=
  if agentlessMode env then
    ⟨api_key, env.DD_APP_KEY.getD "", none, none⟩
  else
    ⟨api_key, env.DD_APP_KEY.getD "", some (env.DD_AGENT_HOST.getD "localhost"), some port⟩

/-- Body of the `try` block of `_initialize_datadog`: either finishes
with a client state or raises.  `transport_setup` is the oracle for
`datadog.initialize` (`none` means it returned normally). -/
def initializeDatadogBody (env : DatadogEnv)
    (transport_setup : DatadogOptions → Option PyError) : Except PyError ClientState :=
  match env.DD_API_KEY with
  | none => .ok ⟨false, none⟩
  | some api_key =>
    if api_key = "" then .ok ⟨false, none⟩
    else
      match dogstatsdPort env with
      | none => .error (.exc "ValueError" "invalid literal for int() with base 10")
      | some port =>
        let options := buildOptions env api_key port
        match transport_setup options with
        | some e => .error e
        | none => .ok ⟨true, some options⟩

/-- Embedding of `DatadogMetrics._initialize_datadog`: runs the body and
catches any exception, degrading to an uninitialized client. -/
def initialize_datadog (env : DatadogEnv)
    (transport_setup : DatadogOptions → Option PyError) : ClientState :=
  match initializeDatadogBody env transport_setup with
  | .ok st => st
  | .error _ => ⟨false, none⟩

structure Request where
  method : String
  path : String
deriving DecidableEq

structure Response where
  status_code : Int
deriving DecidableEq

/-- Result of running a request handler or the middleware: the traces of
metric operations and the outcome (a value, or a raised exception). -/
structure HandlerResult (α : Type) where
  calls : List MetricEvent
  sent : List MetricEvent
  outcome : Except PyError α

/-- The tag list `['method:...', 'path:...']` used by the middleware. -/
def methodPathTags (req : Request) : List String :=
  ["method:" ++ req.method, "path:" ++ req.path]

/-- The `except` branch of `datadog_middleware`: increments the
`request.error` counter (which may itself raise, replacing the pending
exception) and re-raises. -/
def middlewareErrorBranch (st : ClientState) (tr : Transport) (req : Request)
    (callsAcc sentAcc : List MetricEvent) (e : PyError) : HandlerResult Response :=
  let er := increment_counter st tr "nexus.analytics.request.error" 1
    (methodPathTags req ++ ["error_type:" ++ e.typeName])
  ⟨callsAcc ++ er.calls, sentAcc ++ er.sent,
    .error (match er.exc with | some e2 => e2 | none => e)⟩

/-- Embedding of `datadog_middleware` in `src/app/main.py`.
`start_time` and `end_time` are the two `time.time()` readings;
`call_next` is the downstream handler. -/
def datadog_middleware (st : ClientState) (tr : Transport)
    (sample : Except PyError PsutilSample) (start_time end_time : Rat)
    (req : Request) (call_next : Request → Except PyError Response) :
    HandlerResult Response :=
  let c := increment_counter st tr "nexus.analytics.request.count" 1 (methodPathTags req)
  match c.exc with
  | some e => ⟨c.calls, c.sent, .error e⟩
  | none =>
    let t := track_system_metrics st tr sample
    match t.exc with
    | some e => ⟨c.calls ++ t.calls, c.sent ++ t.sent, .error e⟩
    | none =>
      let preCalls := c.calls ++ t.calls
      let preSent := c.sent ++ t.sent
      match call_next req with
      | .error e => middlewareErrorBranch st tr req preCalls preSent e
      | .ok response =>
        let response_time := (end_time - start_time) * 1000
        let h := record_histogram st tr "nexus.analytics.request.duration" response_time
          (methodPathTags req ++ ["status:" ++ toString response.status_code])
        match h.exc with
        | some e => middlewareErrorBranch st tr req (preCalls ++ h.calls) (preSent ++ h.sent) e
        | none =>
          if 200 ≤ response.status_code ∧ response.status_code < 300 then
            let s := increment_counter st tr "nexus.analytics.request.success" 1
              (methodPathTags req)
            match s.exc with
            | some e =>
              middlewareErrorBranch st tr req (preCalls ++ h.calls ++ s.calls)
                (preSent ++ h.sent ++ s.sent) e
            | none =>
              ⟨preCalls ++ h.calls ++ s.calls, preSent ++ h.sent ++ s.sent, .ok response⟩
          else ⟨preCalls ++ h.calls, preSent ++ h.sent, .ok response⟩

structure HealthResponse where
  status : String
  service : String
  system_metrics : SystemSnapshot
deriving DecidableEq

/-- Embedding of the `GET /health` handler `health_check`. -/
def health_check (st : ClientState) (tr : Transport)
    (sample : Except PyError PsutilSample) : HandlerResult HealthResponse :=
  match get_system_metrics sample with
  | .error e => ⟨[], [], .error e⟩
  | .ok system_metrics =>
    let c := increment_counter st tr "nexus.analytics.health_check" 1 []
    match c.exc with
    | some e => ⟨c.calls, c.sent, .error e⟩
    | none => ⟨c.calls, c.sent, .ok ⟨"healthy", "nexus-analytics", system_metrics⟩⟩

/-- The JSON body posted to `POST /analytics/query`; only `query_type`
is read by the handler (`query.get("query_type")`). -/
structure QueryRequest where
  query_type : Option String
deriving DecidableEq

/-- The body returned by `POST /analytics/query`. -/
structure QueryResult where
  query_id : String
  query_type : Option String
  status : String
  sample_data : List Nat
deriving DecidableEq

/-- The tag `query_type:{query.get("query_type", "unknown")}`. -/
def queryTypeTag (query : QueryRequest) : String :=
  "query_type:" ++ query.query_type.getD "unknown"

/-- The `except` branch of `process_analytics_query`: increments the
`queries.error` counter (which may itself raise) and otherwise raises
`HTTPException(status_code=500, detail="Query processing failed")`. -/
def queryErrorBranch (st : ClientState) (tr : Transport)
    (callsAcc sentAcc : List MetricEvent) (e : PyError) : HandlerResult QueryResult :=
  let er := increment_counter st tr "nexus.analytics.queries.error" 1
    ["error_type:" ++ e.typeName]
  ⟨callsAcc ++ er.calls, sentAcc ++ er.sent,
    .error (match er.exc with
            | some e2 => e2
            | none => .http 500 "Query processing failed")⟩

/-- Embedding of the `POST /analytics/query` handler
`process_analytics_query`.  `count` is the value of the process-wide
`analytics_query_count` before the call; the first component of the
result is its value after the call.  `processing_start` and
`processing_end` are the two `time.time()` readings around the
simulated query processing. -/
def process_analytics_query (st : ClientState) (tr : Transport) (count : Nat)
    (query : QueryRequest) (processing_start processing_end : Rat) :
    Nat × HandlerResult QueryResult :=
  let count2 := count + 1
  let c := increment_counter st tr "nexus.analytics.queries.processed" 1 [queryTypeTag query]
  match c.exc with
  | some e => (count2, queryErrorBranch st tr c.calls c.sent e)
  | none =>
    let g := record_gauge st tr "nexus.analytics.queries.total" (count2 : Rat) []
    match g.exc with
    | some e => (count2, queryErrorBranch st tr (c.calls ++ g.calls) (c.sent ++ g.sent) e)
    | none =>
      let result : QueryResult :=
        ⟨"query_" ++ Nat.repr count2, query.query_type, "processed", [1, 2, 3, 4, 5]⟩
      let processing_time := (processing_end - processing_start) * 1000
      let t := record_timing st tr "nexus.analytics.queries.processing_time" processing_time
        [queryTypeTag query]
      match t.exc with
      | some e =>
        (count2, queryErrorBranch st tr (c.calls ++ g.calls ++ t.calls)
          (c.sent ++ g.sent ++ t.sent) e)
      | none =>
        (count2, ⟨c.calls ++ g.calls ++ t.calls, c.sent ++ g.sent ++ t.sent, .ok result⟩)

/-- The body returned by `GET /metrics/summary`. -/
structure SummaryResponse where
  analytics_queries_processed : Nat
  system_metrics : SystemSnapshot
  datadog_initialized : Bool
deriving DecidableEq

/-- Embedding of the `GET /metrics/summary` handler `metrics_summary`. -/
def metrics_summary (st : ClientState) (count : Nat)
    (sample : Except PyError PsutilSample) : Except PyError SummaryResponse :=
  (get_system_metrics sample).map fun m => ⟨count, m, st.initialized⟩

/-- One call to `POST /analytics/query`: the request body and the two
timestamps of the handler. -/
structure QueryCall where
  query : QueryRequest
  processing_start : Rat
  processing_end : Rat

/-- A sequence of calls to `POST /analytics/query`, threading the
process-wide `analytics_query_count`; returns the final counter value
and the outcome of every call in order. -/
def runQueries (st : ClientState) (tr : Transport) :
    Nat → List QueryCall → Nat × List (Except PyError QueryResult)
  | count, [] => (count, [])
  | count, qc :: rest =>
    let r := process_analytics_query st tr count qc.query qc.processing_start qc.processing_end
    let restRun := runQueries st tr r.1 rest
    (restRun.1, r.2.outcome :: restRun.2)

/-- The query ids actually returned to clients by a sequence of calls
(failed calls return no id). -/
def returnedIds (outs : List (Except PyError QueryResult)) : List String :=
  outs.filterMap fun o =>
    match o with
    | .ok r => some r.query_id
    | .error _ => none

/-- Decimal decoding step used to read back the numeric part of a query
id. -/
def decodeStep (n : Nat) (c : Char) : Nat :=
  n * 10 + (c.toNat - Char.toNat '0')

/-- Decode a list of decimal digit characters; `none` if the list is
empty or contains a non-digit. -/
def decodeNatChars (l : List Char) : Option Nat :=
  if l ≠ [] ∧ l.all (·.isDigit) then some (l.foldl decodeStep 0) else none

/-- The numeric part of a query id of the form `query_<n>`. -/
def queryIdIndex (s : String) : Option Nat :=
  decodeNatChars (s.data.drop 6)

/-! ### Helper lemmas about the metric operations -/

theorem increment_counter_calls (st : ClientState) (tr : Transport) (n : String)
    (v : Rat) (tags : List String) :
    (increment_counter st tr n v tags).calls = [⟨n, .counter, v, tags⟩] := by
  cases h : st.initialized <;> simp [increment_counter, h]

theorem record_gauge_calls (st : ClientState) (tr : Transport) (n : String)
    (v : Rat) (tags : List String) :
    (record_gauge st tr n v tags).calls = [⟨n, .gauge, v, tags⟩] := by
  cases h : st.initialized <;> simp [record_gauge, h]

theorem record_histogram_calls (st : ClientState) (tr : Transport) (n : String)
    (v : Rat) (tags : List String) :
    (record_histogram st tr n v tags).calls = [⟨n, .histogram, v, tags⟩] := by
  cases h : st.initialized <;> simp [record_histogram, h]

theorem record_timing_calls (st : ClientState) (tr : Transport) (n : String)
    (v : Rat) (tags : List String) :
    (record_timing st tr n v tags).calls = [⟨n, .timing, v, tags⟩] := by
  cases h : st.initialized <;> simp [record_timing, h]

theorem increment_counter_exc_of_reliable (st : ClientState) (tr : Transport) (n : String)
    (v : Rat) (tags : List String) (htr : ∀ ev, tr ev = none) :
    (increment_counter st tr n v tags).exc = none := by
  cases h : st.initialized <;> simp [increment_counter, h, htr]

theorem record_gauge_exc_of_reliable (st : ClientState) (tr : Transport) (n : String)
    (v : Rat) (tags : List String) (htr : ∀ ev, tr ev = none) :
    (record_gauge st tr n v tags).exc = none := by
  cases h : st.initialized <;> simp [record_gauge, h, htr]

theorem record_histogram_exc_of_reliable (st : ClientState) (tr : Transport) (n : String)
    (v : Rat) (tags : List String) (htr : ∀ ev, tr ev = none) :
    (record_histogram st tr n v tags).exc = none := by
  cases h : st.initialized <;> simp [record_histogram, h, htr]

theorem record_timing_exc_of_reliable (st : ClientState) (tr : Transport) (n : String)
    (v : Rat) (tags : List String) (htr : ∀ ev, tr ev = none) :
    (record_timing st tr n v tags).exc = none := by
  cases h : st.initialized <;> simp [record_timing, h, htr]

theorem mem_seq_calls (a b : EmitResult) (ev : MetricEvent)
    (h : ev ∈ (a.seq b).calls) : ev ∈ a.calls ∨ ev ∈ b.calls := by
  unfold EmitResult.seq at h
  cases he : a.exc with
  | some e => rw [he] at h; exact Or.inl h
  | none => rw [he] at h; simpa using h

theorem track_system_metrics_exc (st : ClientState) (tr : Transport)
    (sample : Except PyError PsutilSample) :
    (track_system_metrics st tr sample).exc = none := by
  unfold track_system_metrics
  split
  · rfl
  · split <;> rfl

/-- Every client-level call made by `track_system_metrics` is one of the
three system gauges. -/
theorem track_system_metrics_calls_names (st : ClientState) (tr : Transport)
    (sample : Except PyError PsutilSample) (ev : MetricEvent)
    (h : ev ∈ (track_system_metrics st tr sample).calls) :
    ev.name = "nexus.analytics.system.cpu_percent" ∨
      ev.name = "nexus.analytics.system.memory_percent" ∨
      ev.name = "nexus.analytics.system.memory_available_mb" := by
  unfold track_system_metrics at h
  split at h
  · simp at h
  · split at h
    · simp at h
    · simp only at h
      rcases mem_seq_calls _ _ _ h with h1 | h2
      · rw [record_gauge_calls] at h1
        simp at h1
        subst h1
        exact Or.inl rfl
      · rcases mem_seq_calls _ _ _ h2 with h3 | h4
        · rw [record_gauge_calls] at h3
          simp at h3
          subst h3
          exact Or.inr (Or.inl rfl)
        · rw [record_gauge_calls] at h4
          simp at h4
          subst h4
          exact Or.inr (Or.inr rfl)

/-- Filtering the calls of `track_system_metrics` for any metric name
other than the three system gauges yields nothing. -/
theorem track_system_metrics_filter (st : ClientState) (tr : Transport)
    (sample : Except PyError PsutilSample) (nm : String)
    (h1 : nm ≠ "nexus.analytics.system.cpu_percent")
    (h2 : nm ≠ "nexus.analytics.system.memory_percent")
    (h3 : nm ≠ "nexus.analytics.system.memory_available_mb") :
    (track_system_metrics st tr sample).calls.filter (fun ev => ev.name == nm) = [] := by
  rw [List.filter_eq_nil_iff]
  intro ev hev
  rcases track_system_metrics_calls_names st tr sample ev hev with h | h | h <;>
    simp [h, h1.symm, h2.symm, h3.symm]

/-! ### Claim theorems: client-level claims -/

/-- C2: when the client state has `initialized = false`, every
metric-emission operation (`increment_counter`, `record_gauge`,
`record_histogram`, `record_timing`, and `track_system_metrics`) makes
no call to the transport and raises no exception, for all argument
values; `track_system_metrics` moreover performs no client call at
all. -/
theorem uninitialized_client_noop (opts : Option DatadogOptions) (tr : Transport)
    (n : String) (v : Rat) (tags : List String) (sample : Except PyError PsutilSample) :
    ((increment_counter ⟨false, opts⟩ tr n v tags).sent = [] ∧
      (increment_counter ⟨false, opts⟩ tr n v tags).exc = none) ∧
    ((record_gauge ⟨false, opts⟩ tr n v tags).sent = [] ∧
      (record_gauge ⟨false, opts⟩ tr n v tags).exc = none) ∧
    ((record_histogram ⟨false, opts⟩ tr n v tags).sent = [] ∧
      (record_histogram ⟨false, opts⟩ tr n v tags).exc = none) ∧
    ((record_timing ⟨false, opts⟩ tr n v tags).sent = [] ∧
      (record_timing ⟨false, opts⟩ tr n v tags).exc = none) ∧
    ((track_system_metrics ⟨false, opts⟩ tr sample).calls = [] ∧
      (track_system_metrics ⟨false, opts⟩ tr sample).sent = [] ∧
      (track_system_metrics ⟨false, opts⟩ tr sample).exc = none) :=
  ⟨⟨rfl, rfl⟩, ⟨rfl, rfl⟩, ⟨rfl, rfl⟩, ⟨rfl, rfl⟩, rfl, rfl, rfl⟩

/-- C5: client initialization never raises.  If the API key is absent
(or empty, which Python treats as missing), `_initialize_datadog`
returns normally with `initialized = false`; if the body raises any
exception, it is caught and the client ends with `initialized = false`;
otherwise the transport is configured (agentless or host:port mode per
the environment flag, as computed by `buildOptions`) and
`initialized = true`. -/
theorem initialize_datadog_spec (env : DatadogEnv)
    (transport_setup : DatadogOptions → Option PyError) :
    ((env.DD_API_KEY = none ∨ env.DD_API_KEY = some "") →
      initialize_datadog env transport_setup = ⟨false, none⟩) ∧
    (∀ e, initializeDatadogBody env transport_setup = .error e →
      initialize_datadog env transport_setup = ⟨false, none⟩) ∧
    (∀ api_key port, env.DD_API_KEY = some api_key → api_key ≠ "" →
      dogstatsdPort env = some port →
      transport_setup (buildOptions env api_key port) = none →
      initialize_datadog env transport_setup = ⟨true, some (buildOptions env api_key port)⟩) := by
  refine ⟨?_, ?_, ?_⟩
  · rintro (h | h) <;> simp [initialize_datadog, initializeDatadogBody, h]
  · intro e he
    simp [initialize_datadog, he]
  · intro api_key port hk hne hp hts
    simp [initialize_datadog, initializeDatadogBody, hk, hne, hp, hts]

/-- Witness for C5: a concrete environment with an API key, no agentless
flag and default port initializes successfully in host:port mode. -/
theorem initialize_datadog_spec_witness :
    initialize_datadog ⟨some "k", none, none, none, none⟩ (fun _ => none) =
      ⟨true, some ⟨"k", "", some "localhost", some 8125⟩⟩ := by
  have h := (initialize_datadog_spec ⟨some "k", none, none, none, none⟩ (fun _ => none)).2.2
    "k" 8125 rfl (by decide) rfl rfl
  have hb : buildOptions ⟨some "k", none, none, none, none⟩ "k" 8125 =
      ⟨"k", "", some "localhost", some 8125⟩ := by decide
  rw [hb] at h
  exact h

/-- C9: `track_system_metrics` never raises: its trace always carries no
exception, whatever the client state, transport behavior, and sampling
outcome; when initialized with a successful sample and a transport that
does not raise, it forwards exactly the three system gauges.  In
contrast the direct `increment_counter`, `record_gauge`,
`record_histogram` and `record_timing` operations propagate a transport
exception to their caller. -/
theorem track_system_metrics_error_handling :
    (∀ (st : ClientState) (tr : Transport) (sample : Except PyError PsutilSample),
      (track_system_metrics st tr sample).exc = none) ∧
    (∀ (opts : Option DatadogOptions) (tr : Transport) (s : PsutilSample),
      (∀ ev, tr ev = none) →
      (track_system_metrics ⟨true, opts⟩ tr (.ok s)).sent =
        [⟨"nexus.analytics.system.cpu_percent", .gauge, s.cpu_percent, []⟩,
         ⟨"nexus.analytics.system.memory_percent", .gauge, s.memory_percent, []⟩,
         ⟨"nexus.analytics.system.memory_available_mb", .gauge,
           s.memory_available / (1024 * 1024), []⟩]) ∧
    (∀ (opts : Option DatadogOptions) (tr : Transport) (n : String) (v : Rat)
      (tags : List String) (e : PyError), tr ⟨n, .counter, v, tags⟩ = some e →
      (increment_counter ⟨true, opts⟩ tr n v tags).exc = some e) ∧
    (∀ (opts : Option DatadogOptions) (tr : Transport) (n : String) (v : Rat)
      (tags : List String) (e : PyError), tr ⟨n, .gauge, v, tags⟩ = some e →
      (record_gauge ⟨true, opts⟩ tr n v tags).exc = some e) ∧
    (∀ (opts : Option DatadogOptions) (tr : Transport) (n : String) (v : Rat)
      (tags : List String) (e : PyError), tr ⟨n, .histogram, v, tags⟩ = some e →
      (record_histogram ⟨true, opts⟩ tr n v tags).exc = some e) ∧
    (∀ (opts : Option DatadogOptions) (tr : Transport) (n : String) (v : Rat)
      (tags : List String) (e : PyError), tr ⟨n, .timing, v, tags⟩ = some e →
      (record_timing ⟨true, opts⟩ tr n v tags).exc = some e) := by
  refine ⟨track_system_metrics_exc, ?_, ?_, ?_, ?_, ?_⟩
  · intro opts tr s htr
    simp [track_system_metrics, get_system_metrics, Except.map, record_gauge,
      EmitResult.seq, htr]
  · intro opts tr n v tags e h
    simp [increment_counter, h]
  · intro opts tr n v tags e h
    simp [record_gauge, h]
  · intro opts tr n v tags e h
    simp [record_histogram, h]
  · intro opts tr n v tags e h
    simp [record_timing, h]

/-- Witness for C9: on a concrete initialized client, a failing
transport call makes `increment_counter` raise while
`track_system_metrics` still raises nothing. -/
theorem track_system_metrics_error_handling_witness :
    (track_system_metrics ⟨true, none⟩ (fun _ => some (.exc "ConnectionError" "down"))
      (.ok ⟨1, 2, 3⟩)).exc = none ∧
    (increment_counter ⟨true, none⟩ (fun _ => some (.exc "ConnectionError" "down"))
      "m" 1 []).exc = some (.exc "ConnectionError" "down") :=
  ⟨track_system_metrics_error_handling.1 ⟨true, none⟩ _ (.ok ⟨1, 2, 3⟩),
    track_system_metrics_error_handling.2.2.1 none _ "m" 1 [] _ rfl⟩

/-- C10: every call to `POST /analytics/query` increments the global
query counter exactly once, whether it succeeds or ends in an HTTP 500:
the increment precedes all processing and is never rolled back.  A call
whose processing raises returns an error (so the id `query_<count+1>`
it consumed is never returned to a client), and the next successful
call returns `query_<count+2>`, skipping that value. -/
theorem query_counter_not_rolled_back :
    (∀ (st : ClientState) (tr : Transport) (count : Nat) (query : QueryRequest)
      (a b : Rat), (process_analytics_query st tr count query a b).1 = count + 1) ∧
    (∀ (opts : Option DatadogOptions) (tr : Transport) (count : Nat)
      (query : QueryRequest) (a b : Rat) (e : PyError),
      tr ⟨"nexus.analytics.queries.processed", .counter, 1, [queryTypeTag query]⟩ = some e →
      ∃ e2, (process_analytics_query ⟨true, opts⟩ tr count query a b).2.outcome =
        .error e2) ∧
    (∀ (st : ClientState) (tr2 : Transport) (count : Nat) (query : QueryRequest)
      (a b : Rat), (∀ ev, tr2 ev = none) →
      ∃ r, (process_analytics_query st tr2 (count + 1) query a b).2.outcome = .ok r ∧
        r.query_id = "query_" ++ Nat.repr (count + 2)) := by
  refine ⟨?_, ?_, ?_⟩
  · intro st tr count query a b
    cases hc : (increment_counter st tr "nexus.analytics.queries.processed" 1
        [queryTypeTag query]).exc with
    | some e => simp [process_analytics_query, hc]
    | none =>
      cases hg : (record_gauge st tr "nexus.analytics.queries.total"
          ((count : Rat) + 1) []).exc with
      | some e => simp [process_analytics_query, hc, hg]
      | none =>
        cases ht : (record_timing st tr "nexus.analytics.queries.processing_time"
            ((b - a) * 1000) [queryTypeTag query]).exc with
        | some e => simp [process_analytics_query, hc, hg, ht]
        | none => simp [process_analytics_query, hc, hg, ht]
  · intro opts tr count query a b e h
    cases her : tr ⟨"nexus.analytics.queries.error", .counter, 1,
        ["error_type:" ++ e.typeName]⟩ with
    | none =>
      exact ⟨.http 500 "Query processing failed",
        by simp [process_analytics_query, queryErrorBranch, increment_counter, h, her]⟩
    | some e2 =>
      exact ⟨e2,
        by simp [process_analytics_query, queryErrorBranch, increment_counter, h, her]⟩
  · intro st tr2 count query a b htr
    refine ⟨⟨"query_" ++ Nat.repr (count + 2), query.query_type, "processed",
      [1, 2, 3, 4, 5]⟩, ?_, rfl⟩
    have h1 := increment_counter_exc_of_reliable st tr2
      "nexus.analytics.queries.processed" 1 [queryTypeTag query] htr
    have h2 := record_gauge_exc_of_reliable st tr2 "nexus.analytics.queries.total"
      ((count : Rat) + 1 + 1) [] htr
    have h3 := record_timing_exc_of_reliable st tr2
      "nexus.analytics.queries.processing_time" ((b - a) * 1000) [queryTypeTag query] htr
    have hn : count + 2 = count + 1 + 1 := by omega
    rw [hn]
    simp [process_analytics_query, h1, h2, h3]

/-- Witness for C10: with a concrete initialized client whose transport
always raises, the first call fails with an error yet the counter moves
from 0 to 1, and a following call through a reliable transport returns
`query_2`, never `query_1`. -/
theorem query_counter_not_rolled_back_witness :
    (process_analytics_query ⟨true, none⟩ (fun _ => some (.exc "ConnectionError" "down"))
      0 ⟨some "user_activity"⟩ 0 0).1 = 0 + 1 ∧
    (∃ e2, (process_analytics_query ⟨true, none⟩
      (fun _ => some (.exc "ConnectionError" "down"))
      0 ⟨some "user_activity"⟩ 0 0).2.outcome = .error e2) ∧
    (∃ r, (process_analytics_query ⟨true, none⟩ (fun _ => none)
      (0 + 1) ⟨some "user_activity"⟩ 0 0).2.outcome = .ok r ∧
      r.query_id = "query_" ++ Nat.repr (0 + 2)) :=
  ⟨query_counter_not_rolled_back.1 ⟨true, none⟩ _ 0 ⟨some "user_activity"⟩ 0 0,
    query_counter_not_rolled_back.2.1 none _ 0 ⟨some "user_activity"⟩ 0 0
      (.exc "ConnectionError" "down") rfl,
    query_counter_not_rolled_back.2.2 ⟨true, none⟩ _ 0 ⟨some "user_activity"⟩ 0 0
      (fun _ => rfl)⟩

/-- C7: `GET /health` returns a body with status `healthy`, service
`nexus-analytics` and the three-field system-metrics snapshot,
regardless of the metrics-client state (any `st`), and performs one
`health_check` counter increment.  The transport is assumed not to
raise and the psutil sample to succeed. -/
theorem health_check_spec (st : ClientState) (tr : Transport) (s : PsutilSample)
    (htr : ∀ ev, tr ev = none) :
    (health_check st tr (.ok s)).outcome =
      .ok ⟨"healthy", "nexus-analytics",
        ⟨s.cpu_percent, s.memory_percent, s.memory_available / (1024 * 1024)⟩⟩ ∧
    (health_check st tr (.ok s)).calls =
      [⟨"nexus.analytics.health_check", .counter, 1, []⟩] := by
  have h1 := increment_counter_exc_of_reliable st tr "nexus.analytics.health_check" 1 [] htr
  constructor <;>
    simp [health_check, get_system_metrics, Except.map, h1, increment_counter_calls]

/-- Witness for C7: an uninitialized client still serves a healthy
response with the sampled system metrics. -/
theorem health_check_spec_witness :
    (health_check ⟨false, none⟩ (fun _ => none) (.ok ⟨7, 42, 1048576⟩)).outcome =
      .ok ⟨"healthy", "nexus-analytics", ⟨7, 42, 1048576 / (1024 * 1024)⟩⟩ ∧
    (health_check ⟨false, none⟩ (fun _ => none) (.ok ⟨7, 42, 1048576⟩)).calls =
      [⟨"nexus.analytics.health_check", .counter, 1, []⟩] :=
  health_check_spec ⟨false, none⟩ (fun _ => none) ⟨7, 42, 1048576⟩ (fun _ => rfl)

/-! ### Claim theorems: the request middleware -/

/-- C4: for every request whose downstream handler raises, the
middleware emits exactly one `request.error` counter increment tagged
with the request's method, path and the exception's kind, and re-raises
the original exception unchanged (the outcome is the handler's
exception, never swallowed).  The transport itself is assumed not to
raise. -/
theorem middleware_error_path (st : ClientState) (tr : Transport)
    (sample : Except PyError PsutilSample) (t0 t1 : Rat) (req : Request)
    (call_next : Request → Except PyError Response) (e : PyError)
    (htr : ∀ ev, tr ev = none) (hcn : call_next req = .error e) :
    (datadog_middleware st tr sample t0 t1 req call_next).calls.filter
        (fun ev => ev.name == "nexus.analytics.request.error") =
      [⟨"nexus.analytics.request.error", .counter, 1,
        methodPathTags req ++ ["error_type:" ++ e.typeName]⟩] ∧
    (datadog_middleware st tr sample t0 t1 req call_next).outcome = .error e := by
  have hc := increment_counter_exc_of_reliable st tr "nexus.analytics.request.count" 1
    (methodPathTags req) htr
  have ht := track_system_metrics_exc st tr sample
  have her := increment_counter_exc_of_reliable st tr "nexus.analytics.request.error" 1
    (methodPathTags req ++ ["error_type:" ++ e.typeName]) htr
  have htf := track_system_metrics_filter st tr sample "nexus.analytics.request.error"
    (by decide) (by decide) (by decide)
  constructor <;>
    simp [datadog_middleware, middlewareErrorBranch, hc, ht, her, hcn,
      increment_counter_calls, List.filter_append, htf]

/-- Witness for C4: a concrete failing handler makes the middleware emit
one tagged `request.error` increment and re-raise the same exception. -/
theorem middleware_error_path_witness :
    (datadog_middleware ⟨false, none⟩ (fun _ => none) (.ok ⟨1, 2, 3⟩) 0 1
        ⟨"GET", "/boom"⟩ (fun _ => .error (.exc "ValueError" "bad"))).calls.filter
        (fun ev => ev.name == "nexus.analytics.request.error") =
      [⟨"nexus.analytics.request.error", .counter, 1,
        methodPathTags ⟨"GET", "/boom"⟩ ++ ["error_type:" ++ (PyError.exc "ValueError" "bad").typeName]⟩] ∧
    (datadog_middleware ⟨false, none⟩ (fun _ => none) (.ok ⟨1, 2, 3⟩) 0 1
        ⟨"GET", "/boom"⟩ (fun _ => .error (.exc "ValueError" "bad"))).outcome =
      .error (.exc "ValueError" "bad") :=
  middleware_error_path ⟨false, none⟩ (fun _ => none) (.ok ⟨1, 2, 3⟩) 0 1
    ⟨"GET", "/boom"⟩ (fun _ => .error (.exc "ValueError" "bad")) (.exc "ValueError" "bad")
    (fun _ => rfl) rfl

/-- C6: on the success path (handler returns a response), the middleware
records one `request.duration` histogram whose value is the elapsed
wall-clock time converted to milliseconds, tagged by method, path and
status, and increments `request.success` if and only if the status code
lies in `[200, 300)`; the response is returned unchanged.  The
transport is assumed not to raise. -/
theorem middleware_success_path (st : ClientState) (tr : Transport)
    (sample : Except PyError PsutilSample) (t0 t1 : Rat) (req : Request)
    (call_next : Request → Except PyError Response) (resp : Response)
    (htr : ∀ ev, tr ev = none) (hcn : call_next req = .ok resp) :
    (datadog_middleware st tr sample t0 t1 req call_next).calls.filter
        (fun ev => ev.name == "nexus.analytics.request.duration") =
      [⟨"nexus.analytics.request.duration", .histogram, (t1 - t0) * 1000,
        methodPathTags req ++ ["status:" ++ toString resp.status_code]⟩] ∧
    (datadog_middleware st tr sample t0 t1 req call_next).calls.filter
        (fun ev => ev.name == "nexus.analytics.request.success") =
      (if 200 ≤ resp.status_code ∧ resp.status_code < 300 then
        [⟨"nexus.analytics.request.success", .counter, 1, methodPathTags req⟩]
      else []) ∧
    (datadog_middleware st tr sample t0 t1 req call_next).outcome = .ok resp := by
  have hc := increment_counter_exc_of_reliable st tr "nexus.analytics.request.count" 1
    (methodPathTags req) htr
  have ht := track_system_metrics_exc st tr sample
  have hh := record_histogram_exc_of_reliable st tr "nexus.analytics.request.duration"
    ((t1 - t0) * 1000)
    (methodPathTags req ++ ["status:" ++ toString resp.status_code]) htr
  have hs := increment_counter_exc_of_reliable st tr "nexus.analytics.request.success" 1
    (methodPathTags req) htr
  have htfd := track_system_metrics_filter st tr sample "nexus.analytics.request.duration"
    (by decide) (by decide) (by decide)
  have htfs := track_system_metrics_filter st tr sample "nexus.analytics.request.success"
    (by decide) (by decide) (by decide)
  by_cases h2xx : 200 ≤ resp.status_code ∧ resp.status_code < 300 <;>
    refine ⟨?_, ?_, ?_⟩ <;>
      simp [datadog_middleware, hc, ht, hh, hs, hcn, h2xx, increment_counter_calls,
        record_histogram_calls, List.filter_append, htfd, htfs]

/-- Witness for C6: a concrete 204 response yields one duration
histogram and one success increment; the response flows through. -/
theorem middleware_success_path_witness :
    (datadog_middleware ⟨false, none⟩ (fun _ => none) (.ok ⟨1, 2, 3⟩) 2 5
        ⟨"GET", "/"⟩ (fun _ => .ok ⟨204⟩)).calls.filter
        (fun ev => ev.name == "nexus.analytics.request.duration") =
      [⟨"nexus.analytics.request.duration", .histogram, (5 - 2) * 1000,
        methodPathTags ⟨"GET", "/"⟩ ++ ["status:" ++ toString (204 : Int)]⟩] ∧
    (datadog_middleware ⟨false, none⟩ (fun _ => none) (.ok ⟨1, 2, 3⟩) 2 5
        ⟨"GET", "/"⟩ (fun _ => .ok ⟨204⟩)).calls.filter
        (fun ev => ev.name == "nexus.analytics.request.success") =
      (if 200 ≤ (204 : Int) ∧ (204 : Int) < 300 then
        [⟨"nexus.analytics.request.success", .counter, 1, methodPathTags ⟨"GET", "/"⟩⟩]
      else []) ∧
    (datadog_middleware ⟨false, none⟩ (fun _ => none) (.ok ⟨1, 2, 3⟩) 2 5
        ⟨"GET", "/"⟩ (fun _ => .ok ⟨204⟩)).outcome = .ok ⟨204⟩ :=
  middleware_success_path ⟨false, none⟩ (fun _ => none) (.ok ⟨1, 2, 3⟩) 2 5
    ⟨"GET", "/"⟩ (fun _ => .ok ⟨204⟩) ⟨204⟩ (fun _ => rfl) rfl

/-- Enumeration of the possible client-call traces of the middleware:
one `request.count` increment first, then the system gauges of
`track_system_metrics`, then (depending on the branch taken) at most
one `request.duration` histogram, at most one `request.success`
increment, and at most one `request.error` increment. -/
theorem middleware_calls_structure (st : ClientState) (tr : Transport)
    (sample : Except PyError PsutilSample) (t0 t1 : Rat) (req : Request)
    (call_next : Request → Except PyError Response) :
    ∃ tc : List MetricEvent,
      (∀ ev ∈ tc, ev.name = "nexus.analytics.system.cpu_percent" ∨
        ev.name = "nexus.analytics.system.memory_percent" ∨
        ev.name = "nexus.analytics.system.memory_available_mb") ∧
      ((datadog_middleware st tr sample t0 t1 req call_next).calls =
          [⟨"nexus.analytics.request.count", .counter, 1, methodPathTags req⟩] ∨
        (∃ tn : String, (datadog_middleware st tr sample t0 t1 req call_next).calls =
          ⟨"nexus.analytics.request.count", .counter, 1, methodPathTags req⟩ :: tc ++
            [⟨"nexus.analytics.request.error", .counter, 1,
              methodPathTags req ++ ["error_type:" ++ tn]⟩]) ∨
        (∃ (s : Int) (tn : String), (datadog_middleware st tr sample t0 t1 req call_next).calls =
          ⟨"nexus.analytics.request.count", .counter, 1, methodPathTags req⟩ :: tc ++
            [⟨"nexus.analytics.request.duration", .histogram, (t1 - t0) * 1000,
              methodPathTags req ++ ["status:" ++ toString s]⟩,
             ⟨"nexus.analytics.request.error", .counter, 1,
              methodPathTags req ++ ["error_type:" ++ tn]⟩]) ∨
        (∃ (s : Int) (tn : String), (datadog_middleware st tr sample t0 t1 req call_next).calls =
          ⟨"nexus.analytics.request.count", .counter, 1, methodPathTags req⟩ :: tc ++
            [⟨"nexus.analytics.request.duration", .histogram, (t1 - t0) * 1000,
              methodPathTags req ++ ["status:" ++ toString s]⟩,
             ⟨"nexus.analytics.request.success", .counter, 1, methodPathTags req⟩,
             ⟨"nexus.analytics.request.error", .counter, 1,
              methodPathTags req ++ ["error_type:" ++ tn]⟩]) ∨
        (∃ s : Int, (datadog_middleware st tr sample t0 t1 req call_next).calls =
          ⟨"nexus.analytics.request.count", .counter, 1, methodPathTags req⟩ :: tc ++
            [⟨"nexus.analytics.request.duration", .histogram, (t1 - t0) * 1000,
              methodPathTags req ++ ["status:" ++ toString s]⟩,
             ⟨"nexus.analytics.request.success", .counter, 1, methodPathTags req⟩]) ∨
        (∃ s : Int, (datadog_middleware st tr sample t0 t1 req call_next).calls =
          ⟨"nexus.analytics.request.count", .counter, 1, methodPathTags req⟩ :: tc ++
            [⟨"nexus.analytics.request.duration", .histogram, (t1 - t0) * 1000,
              methodPathTags req ++ ["status:" ++ toString s]⟩])) := by
  refine ⟨(track_system_metrics st tr sample).calls,
    track_system_metrics_calls_names st tr sample, ?_⟩
  have ht := track_system_metrics_exc st tr sample
  cases hc : (increment_counter st tr "nexus.analytics.request.count" 1
      (methodPathTags req)).exc with
  | some e =>
    exact Or.inl (by simp [datadog_middleware, hc, increment_counter_calls])
  | none =>
    cases hcn : call_next req with
    | error e =>
      refine Or.inr (Or.inl ⟨e.typeName, ?_⟩)
      simp [datadog_middleware, middlewareErrorBranch, hc, ht, hcn,
        increment_counter_calls]
    | ok resp =>
      cases hh : (record_histogram st tr "nexus.analytics.request.duration"
          ((t1 - t0) * 1000)
          (methodPathTags req ++ ["status:" ++ toString resp.status_code])).exc with
      | some e =>
        refine Or.inr (Or.inr (Or.inl ⟨resp.status_code, e.typeName, ?_⟩))
        simp [datadog_middleware, middlewareErrorBranch, hc, ht, hcn, hh,
          increment_counter_calls, record_histogram_calls]
      | none =>
        by_cases h2xx : 200 ≤ resp.status_code ∧ resp.status_code < 300
        · cases hs : (increment_counter st tr "nexus.analytics.request.success" 1
              (methodPathTags req)).exc with
          | some e =>
            refine Or.inr (Or.inr (Or.inr (Or.inl ⟨resp.status_code, e.typeName, ?_⟩)))
            simp [datadog_middleware, middlewareErrorBranch, hc, ht, hcn, hh, h2xx, hs,
              increment_counter_calls, record_histogram_calls]
          | none =>
            refine Or.inr (Or.inr (Or.inr (Or.inr (Or.inl ⟨resp.status_code, ?_⟩))))
            simp [datadog_middleware, hc, ht, hcn, hh, h2xx, hs,
              increment_counter_calls, record_histogram_calls]
        · refine Or.inr (Or.inr (Or.inr (Or.inr (Or.inr ⟨resp.status_code, ?_⟩))))
          simp [datadog_middleware, hc, ht, hcn, hh, h2xx,
            increment_counter_calls, record_histogram_calls]

/-- C3: for every inbound request, the middleware makes exactly one
`request.count` counter increment and at most one `request.duration`
histogram record, and every such call carries the request's method and
path tags. -/
theorem middleware_count_and_duration_per_request (st : ClientState) (tr : Transport)
    (sample : Except PyError PsutilSample) (t0 t1 : Rat) (req : Request)
    (call_next : Request → Except PyError Response) :
    ((datadog_middleware st tr sample t0 t1 req call_next).calls.filter
        (fun ev => ev.name == "nexus.analytics.request.count")).length = 1 ∧
    ((datadog_middleware st tr sample t0 t1 req call_next).calls.filter
        (fun ev => ev.name == "nexus.analytics.request.duration")).length ≤ 1 ∧
    (∀ ev ∈ (datadog_middleware st tr sample t0 t1 req call_next).calls,
      (ev.name = "nexus.analytics.request.count" ∨
        ev.name = "nexus.analytics.request.duration") →
      ("method:" ++ req.method) ∈ ev.tags ∧ ("path:" ++ req.path) ∈ ev.tags) := by
  obtain ⟨tc, htc, hshape⟩ := middleware_calls_structure st tr sample t0 t1 req call_next
  have hfc : tc.filter (fun ev => ev.name == "nexus.analytics.request.count") = [] := by
    rw [List.filter_eq_nil_iff]
    intro ev hev
    rcases htc ev hev with h | h | h <;> simp [h]
  have hfd : tc.filter (fun ev => ev.name == "nexus.analytics.request.duration") = [] := by
    rw [List.filter_eq_nil_iff]
    intro ev hev
    rcases htc ev hev with h | h | h <;> simp [h]
  have hmem : ∀ ev ∈ tc,
      (ev.name = "nexus.analytics.request.count" ∨
        ev.name = "nexus.analytics.request.duration") →
      ("method:" ++ req.method) ∈ ev.tags ∧ ("path:" ++ req.path) ∈ ev.tags := by
    intro ev hev hname
    rcases htc ev hev with h | h | h <;> rcases hname with h2 | h2 <;>
      rw [h] at h2 <;> exact absurd h2 (by decide)
  rcases hshape with h | ⟨tn, h⟩ | ⟨s, tn, h⟩ | ⟨s, tn, h⟩ | ⟨s, h⟩ | ⟨s, h⟩
  · refine ⟨by rw [h]; rfl, by rw [h]; simp, ?_⟩
    intro ev hev hname
    rw [h] at hev
    simp only [List.mem_singleton] at hev
    subst hev
    simp [methodPathTags]
  all_goals
    refine ⟨?_, ?_, ?_⟩
    · rw [h]; simp [List.filter_append, hfc]
    · rw [h]; simp [List.filter_append, hfd]
    · intro ev hev hname
      rw [h] at hev
      rcases List.mem_cons.mp hev with rfl | hev2
      · simp [methodPathTags]
      rcases List.mem_append.mp hev2 with hev3 | hev4
      · exact hmem ev hev3 hname
      · fin_cases hev4 <;> simp [methodPathTags]

/-! ### Decoding the decimal representation of query ids -/

theorem decodeStep_digitChar (a d : Nat) (h : d < 10) :
    decodeStep a (Nat.digitChar d) = a * 10 + d := by
  interval_cases d <;> rfl

theorem digitChar_isDigit (d : Nat) (h : d < 10) : (Nat.digitChar d).isDigit = true := by
  interval_cases d <;> rfl

/-- Structure of `Nat.toDigitsCore` in base 10 with adequate fuel: it
prepends a nonempty list of decimal digits that decodes back to `n`. -/
theorem toDigitsCore_structure :
    ∀ (f n : Nat) (ds : List Char), n < f →
      ∃ l : List Char, Nat.toDigitsCore 10 f n ds = l ++ ds ∧ l ≠ [] ∧
        (∀ c ∈ l, c.isDigit = true) ∧ List.foldl decodeStep 0 l = n := by
  intro f
  induction f with
  | zero => intro n ds h; omega
  | succ f ih =>
    intro n ds _
    by_cases h10 : n / 10 = 0
    · refine ⟨[Nat.digitChar (n % 10)], ?_, by simp, ?_, ?_⟩
      · rw [Nat.toDigitsCore]
        simp [h10]
      · intro c hc
        simp only [List.mem_singleton] at hc
        subst hc
        exact digitChar_isDigit _ (Nat.mod_lt _ (by omega))
      · simp only [List.foldl]
        rw [decodeStep_digitChar 0 (n % 10) (Nat.mod_lt _ (by omega))]
        omega
    · have hn : n / 10 < f := by omega
      obtain ⟨l, hl, hne, hdig, hfold⟩ := ih (n / 10) (Nat.digitChar (n % 10) :: ds) hn
      refine ⟨l ++ [Nat.digitChar (n % 10)], ?_, by simp, ?_, ?_⟩
      · rw [Nat.toDigitsCore]
        simp [h10, hl]
      · intro c hc
        rcases List.mem_append.mp hc with hc | hc
        · exact hdig c hc
        · simp only [List.mem_singleton] at hc
          subst hc
          exact digitChar_isDigit _ (Nat.mod_lt _ (by omega))
      · rw [List.foldl_append, hfold]
        simp only [List.foldl]
        rw [decodeStep_digitChar (n / 10) (n % 10) (Nat.mod_lt _ (by omega))]
        omega

/-- The decimal string `Nat.repr n` is nonempty, all digits, and decodes
back to `n`. -/
theorem repr_data_decodes (n : Nat) :
    (Nat.repr n).data ≠ [] ∧ (∀ c ∈ (Nat.repr n).data, c.isDigit = true) ∧
      (Nat.repr n).data.foldl decodeStep 0 = n := by
  obtain ⟨l, hl, hne, hdig, hfold⟩ := toDigitsCore_structure (n + 1) n [] (by omega)
  have hrepr : (Nat.repr n).data = l := by
    show (Nat.toDigits 10 n).asString.data = l
    rw [Nat.toDigits, hl, List.append_nil]
    rfl
  rw [hrepr]
  exact ⟨hne, hdig, hfold⟩

/-- Reading the numeric part back out of a well-formed query id. -/
theorem queryIdIndex_repr (n : Nat) :
    queryIdIndex ("query_" ++ Nat.repr n) = some n := by
  obtain ⟨hne, hdig, hfold⟩ := repr_data_decodes n
  have hd : ("query_" ++ Nat.repr n).data = "query_".data ++ (Nat.repr n).data := rfl
  unfold queryIdIndex
  rw [hd]
  have h6 : ("query_".data).length = 6 := rfl
  rw [List.drop_left' h6]
  unfold decodeNatChars
  rw [if_pos ⟨hne, List.all_eq_true.mpr hdig⟩, hfold]

/-- With a reliable transport, one query call advances the counter by
one and returns the body carrying the id of the new counter value. -/
theorem process_query_outcome_reliable (st : ClientState) (tr : Transport)
    (count : Nat) (query : QueryRequest) (a b : Rat) (htr : ∀ ev, tr ev = none) :
    (process_analytics_query st tr count query a b).1 = count + 1 ∧
    (process_analytics_query st tr count query a b).2.outcome =
      .ok ⟨"query_" ++ Nat.repr (count + 1), query.query_type, "processed",
        [1, 2, 3, 4, 5]⟩ := by
  have h1 := increment_counter_exc_of_reliable st tr "nexus.analytics.queries.processed" 1
    [queryTypeTag query] htr
  have h2 := record_gauge_exc_of_reliable st tr "nexus.analytics.queries.total"
    ((count : Rat) + 1) [] htr
  have h3 := record_timing_exc_of_reliable st tr "nexus.analytics.queries.processing_time"
    ((b - a) * 1000) [queryTypeTag query] htr
  constructor <;> simp [process_analytics_query, h1, h2, h3]

/-- With a reliable transport, a run of `N` query calls advances the
counter by `N`, succeeds on every call, and returns the ids
`query_<count+1>`, ..., `query_<count+N>` in order. -/
theorem runQueries_reliable (st : ClientState) (tr : Transport)
    (htr : ∀ ev, tr ev = none) :
    ∀ (qs : List QueryCall) (count : Nat),
      (runQueries st tr count qs).1 = count + qs.length ∧
      returnedIds (runQueries st tr count qs).2 =
        (List.range qs.length).map (fun i => "query_" ++ Nat.repr (count + i + 1)) ∧
      (∀ o ∈ (runQueries st tr count qs).2, ∃ r, o = .ok r) := by
  intro qs
  induction qs with
  | nil =>
    intro count
    exact ⟨by simp [runQueries], by simp [runQueries, returnedIds], by simp [runQueries]⟩
  | cons qc rest ih =>
    intro count
    have hq := process_query_outcome_reliable st tr count qc.query qc.processing_start
      qc.processing_end htr
    obtain ⟨ihc, ihids, ihok⟩ := ih (count + 1)
    refine ⟨?_, ?_, ?_⟩
    · show (runQueries st tr (process_analytics_query st tr count qc.query
        qc.processing_start qc.processing_end).1 rest).1 = count + (qc :: rest).length
      rw [hq.1, ihc]
      simp
      omega
    · show returnedIds ((process_analytics_query st tr count qc.query qc.processing_start
        qc.processing_end).2.outcome :: (runQueries st tr (process_analytics_query st tr
        count qc.query qc.processing_start qc.processing_end).1 rest).2) = _
      rw [hq.1, hq.2]
      have hcons : returnedIds (Except.ok (⟨"query_" ++ Nat.repr (count + 1),
          qc.query.query_type, "processed", [1, 2, 3, 4, 5]⟩ : QueryResult) ::
            (runQueries st tr (count + 1) rest).2) =
          ("query_" ++ Nat.repr (count + 1)) ::
            returnedIds (runQueries st tr (count + 1) rest).2 := by
        simp [returnedIds]
      rw [hcons, ihids]
      rw [List.length_cons, List.range_succ_eq_map, List.map_cons, List.map_map]
      refine congrArg₂ _ (by simp) ?_
      apply List.map_congr_left
      intro i _
      simp only [Function.comp]
      have : count + (i + 1) + 1 = count + 1 + i + 1 := by omega
      rw [this]
    · intro o ho
      show ∃ r, o = .ok r
      rcases List.mem_cons.mp ho with rfl | ho2
      · exact ⟨_, hq.2⟩
      · rw [hq.1] at ho2
        exact ihok o ho2

/-- C1: each `POST /analytics/query` call increments the process-wide
counter and returns `query_<n>` where `n` is the counter value after
the increment; from a fresh counter the calls return `query_1`,
`query_2`, ... in order, with strictly increasing numeric parts and no
id ever reused.  The transport is assumed not to raise, so every call
succeeds. -/
theorem analytics_query_ids (st : ClientState) (tr : Transport) (qs : List QueryCall)
    (htr : ∀ ev, tr ev = none) :
    (∀ (count : Nat) (query : QueryRequest) (a b : Rat),
      (process_analytics_query st tr count query a b).1 = count + 1 ∧
      (process_analytics_query st tr count query a b).2.outcome =
        .ok ⟨"query_" ++ Nat.repr (count + 1), query.query_type, "processed",
          [1, 2, 3, 4, 5]⟩) ∧
    returnedIds (runQueries st tr 0 qs).2 =
      (List.range qs.length).map (fun i => "query_" ++ Nat.repr (i + 1)) ∧
    List.Pairwise (fun s t => (queryIdIndex s).getD 0 < (queryIdIndex t).getD 0)
      (returnedIds (runQueries st tr 0 qs).2) ∧
    List.Pairwise (· ≠ ·) (returnedIds (runQueries st tr 0 qs).2) := by
  obtain ⟨hcount, hids, hok⟩ := runQueries_reliable st tr htr qs 0
  have hids0 : returnedIds (runQueries st tr 0 qs).2 =
      (List.range qs.length).map (fun i => "query_" ++ Nat.repr (i + 1)) := by
    rw [hids]
    apply List.map_congr_left
    intro i _
    rw [Nat.zero_add]
  have hpair : List.Pairwise
      (fun s t => (queryIdIndex s).getD 0 < (queryIdIndex t).getD 0)
      (returnedIds (runQueries st tr 0 qs).2) := by
    rw [hids0, List.pairwise_map]
    refine (List.pairwise_lt_range qs.length).imp ?_
    intro i j hij
    rw [queryIdIndex_repr, queryIdIndex_repr]
    simpa using hij
  refine ⟨fun count query a b =>
    process_query_outcome_reliable st tr count query a b htr, hids0, hpair, ?_⟩
  refine hpair.imp ?_
  intro s t hlt heq
  rw [heq] at hlt
  exact lt_irrefl _ hlt

/-- Witness for C1: two concrete fresh-state calls return `query_1`
then `query_2`. -/
theorem analytics_query_ids_witness :
    returnedIds (runQueries ⟨false, none⟩ (fun _ => none) 0
      [⟨⟨some "user_activity"⟩, 0, 0⟩, ⟨⟨some "user_activity"⟩, 0, 0⟩]).2 =
      ["query_1", "query_2"] := by
  have h := (analytics_query_ids ⟨false, none⟩ (fun _ => none)
    [⟨⟨some "user_activity"⟩, 0, 0⟩, ⟨⟨some "user_activity"⟩, 0, 0⟩]
    (fun _ => rfl)).2.1
  rw [h]
  rfl

/-- C8: after `N` successful posts to `/analytics/query` from a fresh
counter state, `GET /metrics/summary` returns
`analytics_queries_processed = N` together with the system-metrics
snapshot and the `datadog_initialized` flag.  The transport is assumed
not to raise (making all `N` posts successful). -/
theorem metrics_summary_after_queries (st : ClientState) (tr : Transport)
    (qs : List QueryCall) (s : PsutilSample) (htr : ∀ ev, tr ev = none) :
    (∀ o ∈ (runQueries st tr 0 qs).2, ∃ r, o = .ok r) ∧
    (runQueries st tr 0 qs).1 = qs.length ∧
    metrics_summary st (runQueries st tr 0 qs).1 (.ok s) =
      .ok ⟨qs.length, ⟨s.cpu_percent, s.memory_percent,
        s.memory_available / (1024 * 1024)⟩, st.initialized⟩ := by
  obtain ⟨hcount, _, hok⟩ := runQueries_reliable st tr htr qs 0
  have hc : (runQueries st tr 0 qs).1 = qs.length := by rw [hcount]; omega
  refine ⟨hok, hc, ?_⟩
  rw [hc]
  simp [metrics_summary, get_system_metrics, Except.map]

/-- Witness for C8: after three concrete posts the summary reports
exactly three processed queries. -/
theorem metrics_summary_after_queries_witness :
    metrics_summary ⟨false, none⟩ (runQueries ⟨false, none⟩ (fun _ => none) 0
      [⟨⟨some "a"⟩, 0, 0⟩, ⟨⟨some "b"⟩, 0, 0⟩, ⟨⟨none⟩, 0, 0⟩]).1 (.ok ⟨1, 2, 3⟩) =
      .ok ⟨3, ⟨1, 2, 3 / (1024 * 1024)⟩, false⟩ := by
  have h := (metrics_summary_after_queries ⟨false, none⟩ (fun _ => none)
    [⟨⟨some "a"⟩, 0, 0⟩, ⟨⟨some "b"⟩, 0, 0⟩, ⟨⟨none⟩, 0, 0⟩] ⟨1, 2, 3⟩
    (fun _ => rfl)).2.2
  simpa using h

/-- Witness for C3: on a concrete request the middleware makes exactly
one `request.count` call. -/
theorem middleware_count_and_duration_per_request_witness :
    ((datadog_middleware ⟨false, none⟩ (fun _ => none) (.ok ⟨1, 2, 3⟩) 0 1
        ⟨"GET", "/"⟩ (fun _ => .ok ⟨200⟩)).calls.filter
        (fun ev => ev.name == "nexus.analytics.request.count")).length = 1 :=
  (middleware_count_and_duration_per_request ⟨false, none⟩ (fun _ => none)
    (.ok ⟨1, 2, 3⟩) 0 1 ⟨"GET", "/"⟩ (fun _ => .ok ⟨200⟩)).1
